import Mathlib

/-!
Shallow embedding of the logentries client library.

Embedded components:
- the level-filtering and value-formatting pipeline of `lib/LogEntriesLogger.js`
  (the `log`, `level` and `flatten` functions), and
- the transport connection/queue state machine of the transport module
  (`consume`, `end`, `connect` with its `handleConnection` / `handleError` /
  `handleSecureConnection` / `handleClose` callbacks, `processItemsInQueue`,
  `closeSocket`, `createLogLine`).

External behaviour that the code reacts to is made explicit:
- whether each `socket.write` call succeeds is given by an oracle
  `Nat → Bool` indexed by the number of write attempts made so far;
- asynchronous socket callbacks (`connect`, `error`, `close`, TLS
  `secureConnect`) are modelled as state-transition functions invoked by the
  environment;
- `logger.emit(...)` notifications are recorded in an event list in emission
  order.
-/

/- ===== Values and the formatter (LogEntriesLogger.js) ===== -/

/-- A JavaScript value as passed to `log(level, value)`: primitive leaves,
`Date` objects (carried as their `toISOString()` rendering), plain objects
(ordered key/value field lists) and arrays. -/
inductive Value where
  | vStr (s : String)
  | vNum (n : Int)
  | vBool (b : Bool)
  | vNull
  | vUndefined
  | vDate (iso : String)
  | vObj (fields : List (String × Value))
  | vArr (elems : List Value)

/-- The test `_.isObject(value) || _.isArray(value)` used by `flatten` and by
`log`: true for plain objects, arrays and `Date` objects (lodash `isObject`
holds for any non-primitive). -/
def isStructured : Value → Bool
  | .vObj _ => true
  | .vArr _ => true
  | .vDate _ => true
  | _ => false

/-- JavaScript string coercion `'' + data` for the primitive leaves reachable
in `log` and `flatten` (both call sites branch on `_.isDate` respectively
`isStructured` first, so the structured constructors are unreachable here and
mapped to an arbitrary value). -/
def leafToString : Value → String
  | .vStr s => s
  | .vNum n => toString n
  | .vBool b => if b then "true" else "false"
  | .vNull => "null"
  | .vUndefined => "undefined"
  | _ => ""

mutual

/-- `flatten(data, pre)` from `LogEntriesLogger.js` lines 135-147: lodash
`_.forEach` walks the enumerable own key/value pairs of `data` (array indices
become keys `0`, `1`, ...; a `Date` object exposes none), recursing into
structured values with the key path extended by `.`, and emitting
`pre + key + '=' + value + ' '` at each non-structured leaf.  The second
source parameter is named `prefix`; it is called `pre` here. -/
def flatten (data : Value) (pre : String) : String :=
  match data with
  | .vObj fields => flattenFields fields pre
  | .vArr elems => flattenElems elems 0 pre
  | _ => ""

/-- The `_.forEach` walk of `flatten` over an object's field list. -/
def flattenFields (fields : List (String × Value)) (pre : String) : String :=
  match fields with
  | [] => ""
  | (k, v) :: rest => flattenStep k v pre ++ flattenFields rest pre

/-- The `_.forEach` walk of `flatten` over an array, with indices as keys. -/
def flattenElems (elems : List Value) (i : Nat) (pre : String) : String :=
  match elems with
  | [] => ""
  | v :: rest => flattenStep (toString i) v pre ++ flattenElems rest (i + 1) pre

/-- The body of the `_.forEach` callback in `flatten`: recurse into structured
values, emit `pre + key + '=' + value + ' '` at leaves. -/
def flattenStep (k : String) (v : Value) (pre : String) : String :=
  if isStructured v then flatten v (pre ++ k ++ ".")
  else pre ++ k ++ "=" ++ leafToString v ++ " "

end

/-- One character of JSON string escaping (quote, backslash and the control
characters produced by the values modelled here). -/
def jsonEscapeChar (c : Char) : String :=
  if c = '\"' then "\\\""
  else if c = '\\' then "\\\\"
  else if c = '\n' then "\\n"
  else if c = '\t' then "\\t"
  else if c = '\r' then "\\r"
  else String.mk [c]

/-- A JSON string literal for `s`. -/
def jsonQuote (s : String) : String :=
  "\"" ++ String.join (s.data.map jsonEscapeChar) ++ "\""

mutual

/-- `JSON.stringify(data)` (the non-flatten branch of `log`): `none` models
the JavaScript result `undefined`; a `Date` serializes via its `toJSON` to its
ISO string; inside objects, fields whose value stringifies to `undefined` are
omitted; inside arrays such elements become `null`. -/
def jsonStr : Value → Option String
  | .vNull => some "null"
  | .vUndefined => none
  | .vBool b => some (if b then "true" else "false")
  | .vNum n => some (toString n)
  | .vStr s => some (jsonQuote s)
  | .vDate iso => some (jsonQuote iso)
  | .vObj fields => some ("\x7b" ++ String.intercalate "," (jsonFieldParts fields) ++ "\x7d")
  | .vArr elems => some ("[" ++ String.intercalate "," (jsonElemParts elems) ++ "]")

/-- The serialized `"key":value` members of a JSON object, omitting fields
whose values stringify to `undefined`. -/
def jsonFieldParts : List (String × Value) → List String
  | [] => []
  | (k, v) :: rest =>
    match jsonStr v with
    | none => jsonFieldParts rest
    | some s => (jsonQuote k ++ ":" ++ s) :: jsonFieldParts rest

/-- The serialized elements of a JSON array (`undefined` becomes `null`). -/
def jsonElemParts : List Value → List String
  | [] => []
  | v :: rest => ((jsonStr v).getD "null") :: jsonElemParts rest

end

/-- The newline replacement in `log`: every literal newline in `args[1]` is
replaced by the Unicode line separator U+2028. -/
def replaceNewlines (s : String) : String :=
  String.mk (s.data.map (fun c => if c = '\n' then '\u2028' else c))

/-- The value-conversion block of `log` (`LogEntriesLogger.js` lines 74-87):
a `Date` becomes its ISO string; an object or array is flattened (or
`JSON.stringify`-ed when `opts.flatten` is false); anything else is coerced
with `'' + data`; finally newlines are replaced by U+2028. -/
def formatValue (flattenOpt : Bool) (data : Value) : String :=
  let s :=
    match data with
    | .vDate iso => iso
    | .vObj _ => if flattenOpt then flatten data "" else (jsonStr data).getD ""
    | .vArr _ => if flattenOpt then flatten data "" else (jsonStr data).getD ""
    | _ => leafToString data
  replaceNewlines s

/- ===== Level registry and dispatch (LogEntriesLogger.js) ===== -/

/-- A value produced by the JavaScript property read `opts.levels[name]`:
either an own numeric registry entry, or a member inherited from
`Object.prototype` (`opts.levels` is a plain object built by `_.defaults` and
`_.omit`, so its prototype chain is live).  Every inherited member is a
function (or, for `__proto__`, an object) — never a number. -/
inductive JsVal where
  | num (n : Int)
  | protoMember (name : String)
deriving DecidableEq

/-- The property names a plain object inherits from `Object.prototype` in
Node.js; reading any of them on `opts.levels` yields a non-`undefined`,
non-numeric value. -/
def objectPrototypeNames : List String :=
  ["constructor", "hasOwnProperty", "isPrototypeOf", "propertyIsEnumerable",
   "toLocaleString", "toString", "valueOf", "__defineGetter__",
   "__defineSetter__", "__lookupGetter__", "__lookupSetter__", "__proto__"]

/-- The JavaScript property read `opts.levels[name]`: an own key shadows the
prototype; otherwise the read walks the prototype chain up to
`Object.prototype`; `none` models the result `undefined`. -/
def levelsGet (levels : List (String × Nat)) (name : String) : Option JsVal :=
  match levels.lookup name with
  | some v => some (.num (v : Int))
  | none =>
    if objectPrototypeNames.contains name then some (.protoMember name)
    else none

/-- The JavaScript comparison `currentLevel <= levelValue`: an inherited
`Object.prototype` member coerces to `NaN`, and every comparison involving
`NaN` is false. -/
def jsLe : JsVal → JsVal → Bool
  | .num a, .num b => decide (a ≤ b)
  | _, _ => false

/-- The logger's mutable threshold state: `currentLevel` starts at `-1`
(accept everything) and `currentLevelName` starts undefined.  `currentLevel`
holds whatever `opts.levels[name]` last produced: a number for a registered
name, or an `Object.prototype` member after `level` was called with an
inherited name. -/
structure LoggerState where
  currentLevel : JsVal
  currentLevelName : Option String
deriving DecidableEq

/-- The state of a freshly constructed `LogEntriesLogger`. -/
def initLoggerState : LoggerState :=
  { currentLevel := .num (-1), currentLevelName := none }

/-- The default syslog-style level registry from the `_.defaults` call. -/
def defaultLevels : List (String × Nat) :=
  [("debug", 0), ("info", 1), ("notice", 2), ("warning", 3),
   ("err", 4), ("crit", 5), ("alert", 6), ("emerg", 7)]

/-- The reserved method names filtered out of `opts.levels` by `_.omit`. -/
def reservedNames : List String := ["log", "end", "level", "levels", "on", "once"]

/-- `opts.levels = _.omit(opts.levels, [...])`: drop reserved names from the
registry. -/
def omitReserved (levels : List (String × Nat)) : List (String × Nat) :=
  levels.filter (fun p => !(reservedNames.contains p.1))

/-- One formatted log entry: the `args` array handed to `transport.consume`
(`[timestamp?, level, message]`). -/
abbrev Entry := List String

/-- The `args` array built by `log`: `[level, formatted]`, with the timestamp
string unshifted in front when timestamping is enabled. -/
def entryOf (ts : Option String) (levelName : String) (formatted : String) : Entry :=
  match ts with
  | some t => [t, levelName, formatted]
  | none => [levelName, formatted]

/-- `this.log` from `LogEntriesLogger.js` lines 62-99.  Returns the list of
error messages emitted on the notification channel and the argument array
handed to `transport.consume` (if any).  `ts` is the string
`determineTimestampString(opts)` would produce, `none` when `opts.timestamp`
is falsy.  When `opts.levels[argLevel]` is `undefined` an error is emitted
and then `currentLevel <= undefined` evaluates to false, so nothing is
formatted or consumed; when the read finds an `Object.prototype`-inherited
member no error is emitted, and the `NaN` comparison is false, so the call
is a completely silent no-op. -/
def jsLog (levels : List (String × Nat)) (st : LoggerState) (flattenOpt : Bool)
    (ts : Option String) (argLevel : String) (data : Value) :
    List String × Option Entry :=
  let errs :=
    match levelsGet levels argLevel with
    | none => ["Unknown log level: " ++ argLevel]
    | some _ => []
  match levelsGet levels argLevel with
  | none => (errs, none)
  | some levelValue =>
    if jsLe st.currentLevel levelValue then
      (errs, some (entryOf ts argLevel (formatValue flattenOpt data)))
    else
      (errs, none)

/-- `this.level` from `LogEntriesLogger.js` lines 109-120.  `none` models a
call without argument.  The guard `if (newLevelName)` is JavaScript
truthiness, so the empty string behaves like a missing argument.  The
known-name test is `opts.levels[newLevelName] !== undefined`, which is also
true for `Object.prototype`-inherited names: their non-numeric value is then
stored as the threshold, without a throw.  Returns the state after the call
and either the returned `currentLevelName` or the synchronously thrown error
message. -/
def jsLevel (levels : List (String × Nat)) (st : LoggerState)
    (newLevelName : Option String) : LoggerState × Except String (Option String) :=
  match newLevelName with
  | some n =>
    if n = "" then
      (st, .ok st.currentLevelName)
    else
      match levelsGet levels n with
      | some v =>
        let st1 : LoggerState := { currentLevel := v, currentLevelName := some n }
        (st1, .ok st1.currentLevelName)
      | none => (st, .error ("Unknown log level: " ++ n))
  | none => (st, .ok st.currentLevelName)

/- ===== Transport state machine ===== -/

/-- `CONNECTING_PHASE` from the transport module. -/
inductive ConnPhase where
  | CONNECTING
  | CONNECTED
  | DISCONNECTED
deriving DecidableEq

/-- `CLOSING_PHASE` from the transport module. -/
inductive ClosePhase where
  | CLOSING
  | CLOSED
deriving DecidableEq

/-- Errors the transport reports on the notification channel:
the exception thrown by the `n`-th `socket.write` attempt, the
`new Error(socket.authorizationError)` built for an unauthorized secure
channel, and errors delivered by the socket's own `error` event. -/
inductive JsError where
  | writeFailure (n : Nat)
  | authError (msg : String)
  | channelError (msg : String)
deriving DecidableEq

/-- A `logger.emit(...)` call made by the transport, in emission order. -/
inductive Emitted where
  | errorEvt (e : JsError)
  | logEvt (line : String)
  | connectEvt (host : String) (port : Nat)
  | endEvt
deriving DecidableEq

/-- The transport options read by the transport module. -/
structure Opts where
  token : String
  usequotes : Bool
  secure : Bool
  host : Option String
  port : Option Nat
deriving DecidableEq

def DEFAULT_LE_HOST : String := "api.logentries.com"
def DEFAULT_LE_PORT : Nat := 10000
def DEFAULT_LE_PORT_SECURE : Nat := 20000

/-- `opts.host || DEFAULT_LE_HOST` (the empty string is falsy). -/
def optHost (o : Opts) : String :=
  match o.host with
  | some h => if h = "" then DEFAULT_LE_HOST else h
  | none => DEFAULT_LE_HOST

/-- `opts.port || (opts.secure ? DEFAULT_LE_PORT_SECURE : DEFAULT_LE_PORT)`
(port `0` is falsy). -/
def optPort (o : Opts) : Nat :=
  let d := if o.secure then DEFAULT_LE_PORT_SECURE else DEFAULT_LE_PORT
  match o.port with
  | some p => if p = 0 then d else p
  | none => d

/-- `createLogLine(item, opts)`: the token, then the fields joined by a space
(or each wrapped in quotes), then a newline. -/
def createLogLine (item : Entry) (opts : Opts) : String :=
  if opts.usequotes then
    opts.token ++ "\"" ++ String.intercalate "\" \"" item ++ "\"\n"
  else
    opts.token ++ String.intercalate " " item ++ "\n"

/-- The transport's state: the closure variables `queue`, `socket` (modelled
as the boolean `socket !== null`), `connectingPhase` and `closingPhase`
(both `null` initially), plus the observable history: the notifications
emitted on the logger and the lines accepted by `socket.write`.
`writeCount` counts `socket.write` attempts and indexes the write oracle. -/
structure TS where
  queue : List Entry
  socket : Bool
  connectingPhase : Option ConnPhase
  closingPhase : Option ClosePhase
  emitted : List Emitted
  written : List String
  writeCount : Nat
deriving DecidableEq

/-- The state of a freshly constructed transport. -/
def initTS : TS :=
  { queue := [], socket := false, connectingPhase := none, closingPhase := none,
    emitted := [], written := [], writeCount := 0 }

/-- `closeSocket()`: call `socket.end()` and null the reference when a socket
is held.  The external `socket.end()` call is modelled as not throwing (its
`try`/`catch` guard emits an error only when it does). -/
def closeSocket (st : TS) : TS :=
  if st.socket then { st with socket := false } else st

/-- The `while` loop of `processItemsInQueue`, recursing on the queue
contents (the list argument equals `st.queue` at every call).  Each round
shifts the front item, emits the `log` notification and attempts
`socket.write`; `oracle st.writeCount` tells whether that attempt succeeds.
On failure the item is unshifted back to the front, the error is reported,
the socket is closed, the phase becomes DISCONNECTED and the loop breaks. -/
def processLoop (opts : Opts) (oracle : Nat → Bool) : List Entry → TS → TS
  | [], st => st
  | item :: rest, st =>
    let logLine := createLogLine item opts
    let st1 : TS := { st with
      queue := rest,
      emitted := st.emitted ++ [.logEvt logLine],
      writeCount := st.writeCount + 1 }
    if oracle st.writeCount then
      processLoop opts oracle rest { st1 with written := st1.written ++ [logLine] }
    else
      let st2 : TS := { st1 with
        queue := item :: st1.queue,
        emitted := st1.emitted ++ [.errorEvt (.writeFailure st.writeCount)] }
      { closeSocket st2 with connectingPhase := some .DISCONNECTED }

/-- `processItemsInQueue()` from the transport module. -/
def processItemsInQueue (opts : Opts) (oracle : Nat → Bool) (st : TS) : TS :=
  processLoop opts oracle st.queue st

/-- `connect()` up to the asynchronous callbacks: set the phase to
CONNECTING, emit the `connect` notification with the resolved options and
open the socket (`tls.connect` / `net.createConnection` both return a socket
object synchronously). -/
def connect (opts : Opts) (st : TS) : TS :=
  let st1 : TS := { st with connectingPhase := some .CONNECTING }
  let st2 : TS := { st1 with
    emitted := st1.emitted ++ [.connectEvt (optHost opts) (optPort opts)] }
  { st2 with socket := true }

/-- The `handleConnection` callback: phase CONNECTED, drain the queue, and if
a close was requested while connecting, close the socket and finish closing. -/
def handleConnection (opts : Opts) (oracle : Nat → Bool) (st : TS) : TS :=
  let st1 := processItemsInQueue opts oracle { st with connectingPhase := some .CONNECTED }
  if st1.closingPhase.isSome then
    { closeSocket st1 with closingPhase := some .CLOSED }
  else
    st1

/-- The `handleClose` callback. -/
def handleClose (st : TS) : TS :=
  { closeSocket st with connectingPhase := some .DISCONNECTED }

/-- The `handleError` callback: report the error, close the socket, phase
DISCONNECTED. -/
def handleError (e : JsError) (st : TS) : TS :=
  let st1 : TS := { st with emitted := st.emitted ++ [.errorEvt e] }
  { closeSocket st1 with connectingPhase := some .DISCONNECTED }

/-- The `handleSecureConnection` callback: an unauthorized peer is handed to
`handleError` as `new Error(socket.authorizationError)`; an authorized one
proceeds exactly like a plain connection. -/
def handleSecureConnection (opts : Opts) (oracle : Nat → Bool)
    (authorized : Bool) (authorizationError : String) (st : TS) : TS :=
  if !authorized then handleError (.authError authorizationError) st
  else handleConnection opts oracle st

/-- `this.consume` from the transport module: throw when a closing phase is
set, otherwise push the entry and, depending on the phase, drain immediately
(CONNECTED), start a connection (anything but CONNECTING), or just leave the
entry queued (CONNECTING). -/
def consume (opts : Opts) (oracle : Nat → Bool) (st : TS) (items : Entry) :
    Except String TS :=
  if st.closingPhase.isSome then
    .error "Transport is already closed"
  else
    let st1 : TS := { st with queue := st.queue ++ [items] }
    if st1.connectingPhase = some ConnPhase.CONNECTED then
      .ok (processItemsInQueue opts oracle st1)
    else if st1.connectingPhase ≠ some ConnPhase.CONNECTING then
      .ok (connect opts st1)
    else
      .ok st1

/-- `this.end` from the transport module: a no-op unless a socket is
currently held; otherwise set closing phase CLOSING, then either defer (data
pending while CONNECTING), or drain and close, or close directly, and finally
emit the `end` notification. -/
def endTransport (opts : Opts) (oracle : Nat → Bool) (st : TS) : TS :=
  if st.socket then
    let st1 : TS := { st with closingPhase := some .CLOSING }
    let st2 : TS :=
      if st1.queue.length > 0 then
        if st1.connectingPhase = some ConnPhase.CONNECTING then
          st1
        else
          let st3 := processItemsInQueue opts oracle st1
          { closeSocket st3 with closingPhase := some .CLOSED }
      else
        { closeSocket st1 with closingPhase := some .CLOSED }
    { st2 with emitted := st2.emitted ++ [.endEvt] }
  else
    st

/-- A sequence of `consume` calls, stopping at the first thrown error. -/
def consumeAll (opts : Opts) (oracle : Nat → Bool) : TS → List Entry → Except String TS
  | st, [] => .ok st
  | st, e :: es =>
    match consume opts oracle st e with
    | .ok st1 => consumeAll opts oracle st1 es
    | .error m => .error m

/- ===== Formatter claims ===== -/

/-- C9: in flatten mode the formatter satisfies the reference equations:
flattening the object a↦"1", b↦"2" yields "a=1 b=2 "; flattening the array
["a","b"] yields "0=a 1=b "; flattening a↦null yields "a=null "; flattening
a↦[] yields ""; flattening a↦[null] yields "a.0=null " — keys in iteration
order, nested key paths joined by '.', a trailing space after every
key=value pair. -/
theorem flatten_reference_equations :
    flatten (Value.vObj [("a", .vStr "1"), ("b", .vStr "2")]) "" = "a=1 b=2 " ∧
    flatten (Value.vArr [.vStr "a", .vStr "b"]) "" = "0=a 1=b " ∧
    flatten (Value.vObj [("a", .vNull)]) "" = "a=null " ∧
    flatten (Value.vObj [("a", .vArr [])]) "" = "" ∧
    flatten (Value.vObj [("a", .vArr [.vNull])]) "" = "a.0=null " := by
  refine ⟨?_, ?_, ?_, ?_, ?_⟩ <;>
    simp [flatten, flattenFields, flattenElems, flattenStep, isStructured, leafToString] <;>
    decide

/-- C10: in flatten mode a Date nested inside a structured value is treated
as a structure (lodash `isObject` holds for it), flattening recurses into it,
and since it exposes no enumerable key/value pairs it contributes nothing:
formatting the object a↦d yields the empty string for every Date d, while
the Date-to-ISO conversion applies to a Date supplied as the top-level
value. -/
theorem nested_date_contributes_nothing (iso : String) (k : String) (pre : String) :
    isStructured (Value.vDate iso) = true ∧
    flatten (Value.vDate iso) pre = "" ∧
    flatten (Value.vObj [(k, Value.vDate iso)]) pre = "" ∧
    formatValue true (Value.vObj [("a", Value.vDate iso)]) = "" ∧
    formatValue true (Value.vDate iso) = replaceNewlines iso := by
  refine ⟨rfl, ?_, ?_, ?_, ?_⟩ <;>
    simp [flatten, flattenFields, flattenElems, flattenStep, isStructured,
      formatValue, replaceNewlines]

/- ===== Logger claims ===== -/

/-- C1: for a registered level name with severity `sev`, `log` hands the
formatted entry to `transport.consume` iff the JavaScript comparison
`currentLevel <= severity` passes, i.e. iff the threshold is a number that
is `-1` (unset, below every non-negative severity) or at most the severity;
below the threshold the call is a silent no-op emitting no error
notification. -/
theorem log_transmits_iff_threshold (levels : List (String × Nat))
    (st : LoggerState) (flattenOpt : Bool) (ts : Option String)
    (L : String) (v : Value) (sev : Nat)
    (hreg : levels.lookup L = some sev) :
    jsLog levels st flattenOpt ts L v =
      ([], if jsLe st.currentLevel (.num (sev : Int))
           then some (entryOf ts L (formatValue flattenOpt v)) else none) ∧
    ((jsLog levels st flattenOpt ts L v).2.isSome ↔
      (st.currentLevel = JsVal.num (-1) ∨
        ∃ t : Int, st.currentLevel = JsVal.num t ∧ (sev : Int) ≥ t)) ∧
    (∀ t : Int, st.currentLevel = JsVal.num t → (sev : Int) < t →
      jsLog levels st flattenOpt ts L v = ([], none)) := by
  have hget : levelsGet levels L = some (.num (sev : Int)) := by
    unfold levelsGet
    rw [hreg]
  have key : jsLog levels st flattenOpt ts L v =
      ([], if jsLe st.currentLevel (.num (sev : Int))
           then some (entryOf ts L (formatValue flattenOpt v)) else none) := by
    unfold jsLog
    rw [hget]
    split <;> simp_all <;> split <;> rfl
  refine ⟨key, ?_, ?_⟩
  · rw [key]
    cases hcl : st.currentLevel with
    | num t =>
      by_cases hc : t ≤ (sev : Int) <;> simp [jsLe, hc] <;> omega
    | protoMember p =>
      simp [jsLe]
  · intro t hcl hlt
    rw [key, hcl]
    have hc : ¬ (t ≤ (sev : Int)) := by omega
    simp [jsLe, hc]

/-- C1 witness: with the default registry, level err (severity 4) and the
threshold set to err, the entry is transmitted; the claim theorem applied at
this concrete input. -/
theorem log_transmits_iff_threshold_witness :
    jsLog defaultLevels { currentLevel := .num 4, currentLevelName := some "err" }
        true (some "2015-05-17T15:46:17.231Z") "err" (.vStr "t4") =
      ([], if jsLe (JsVal.num 4) (.num ((4 : Nat) : Int))
           then some (entryOf (some "2015-05-17T15:46:17.231Z") "err"
             (formatValue true (.vStr "t4"))) else none) ∧
    ((jsLog defaultLevels { currentLevel := .num 4, currentLevelName := some "err" }
        true (some "2015-05-17T15:46:17.231Z") "err" (.vStr "t4")).2.isSome ↔
      (JsVal.num 4 = JsVal.num (-1) ∨
        ∃ t : Int, JsVal.num 4 = JsVal.num t ∧ ((4 : Nat) : Int) ≥ t)) ∧
    (∀ t : Int, JsVal.num 4 = JsVal.num t → ((4 : Nat) : Int) < t →
      jsLog defaultLevels { currentLevel := .num 4, currentLevelName := some "err" }
        true (some "2015-05-17T15:46:17.231Z") "err" (.vStr "t4") = ([], none)) :=
  log_transmits_iff_threshold defaultLevels
    { currentLevel := .num 4, currentLevelName := some "err" }
    true (some "2015-05-17T15:46:17.231Z") "err" (.vStr "t4") 4 (by decide)

/-- C8 (amended): for every non-empty level name registered in the registry,
`level(L)` followed by `level()` returns `L` (and sets the threshold to its
severity); for every non-empty name that is neither a key of the registry
nor a property name inherited from `Object.prototype`, `level(B)` throws
"Unknown log level: B" synchronously and leaves the threshold state
unchanged; a non-key name inherited from `Object.prototype` is instead
accepted without a throw — its non-numeric value becomes the threshold. -/
theorem level_set_get_nonempty (levels : List (String × Nat)) (st : LoggerState)
    (L : String) (sev : Nat) (B : String)
    (hL : L ≠ "") (hreg : levels.lookup L = some sev)
    (hB : B ≠ "") (hunreg : levels.lookup B = none)
    (hBproto : objectPrototypeNames.contains B = false) :
    (jsLevel levels st (some L)).2 = .ok (some L) ∧
    ((jsLevel levels st (some L)).1).currentLevel = JsVal.num (sev : Int) ∧
    (jsLevel levels ((jsLevel levels st (some L)).1) none).2 = .ok (some L) ∧
    jsLevel levels st (some B) = (st, .error ("Unknown log level: " ++ B)) ∧
    (∀ P, P ≠ "" → levels.lookup P = none →
      objectPrototypeNames.contains P = true →
      (jsLevel levels st (some P)).2 = .ok (some P)) := by
  have hgetL : levelsGet levels L = some (.num (sev : Int)) := by
    simp [levelsGet, hreg]
  have hgetB : levelsGet levels B = none := by
    have hmem : B ∉ objectPrototypeNames := by simpa using hBproto
    simp [levelsGet, hunreg, hmem]
  simp only [jsLevel]
  rw [if_neg hL, if_neg hB, hgetL, hgetB]
  refine ⟨rfl, rfl, rfl, rfl, ?_⟩
  intro P hP hPl hPp
  have hgetP : levelsGet levels P = some (.protoMember P) := by
    have hmem : P ∈ objectPrototypeNames := by simpa using hPp
    simp [levelsGet, hPl, hmem]
  rw [if_neg hP, hgetP]

/-- C8 witness: the claim theorem applied with the default registry, the
registered name "info" and the unregistered, non-inherited name "bogus". -/
theorem level_set_get_nonempty_witness :
    (jsLevel defaultLevels initLoggerState (some "info")).2 = .ok (some "info") ∧
    ((jsLevel defaultLevels initLoggerState (some "info")).1).currentLevel =
      JsVal.num ((1 : Nat) : Int) ∧
    (jsLevel defaultLevels
      ((jsLevel defaultLevels initLoggerState (some "info")).1) none).2 = .ok (some "info") ∧
    jsLevel defaultLevels initLoggerState (some "bogus") =
      (initLoggerState, .error ("Unknown log level: " ++ "bogus")) ∧
    (∀ P, P ≠ "" → defaultLevels.lookup P = none →
      objectPrototypeNames.contains P = true →
      (jsLevel defaultLevels initLoggerState (some P)).2 = .ok (some P)) :=
  level_set_get_nonempty defaultLevels initLoggerState "info" 1 "bogus"
    (by decide) (by decide) (by decide) (by decide) (by decide)

/-- C8 counterexample: two edge inputs refute the claim as stated.  First,
the empty string can be a registered level name (it is not reserved), yet
`level("")` hits the falsy-argument branch of `if (newLevelName)`: it sets
nothing and behaves as a getter, so `level("")` followed by `level()` does
not return `""`.  Second, `toString` is not a key of the default registry,
yet `level('toString')` does not throw: the known-name test
`opts.levels['toString'] !== undefined` finds `Object.prototype.toString`,
so the inherited function is stored as the threshold and the stored name
changes to `toString` — the threshold state does not stay unchanged. -/
theorem level_unregistered_name_not_throwing :
    (omitReserved [("", 0)] = [("", 0)] ∧
     ([("", 0)] : List (String × Nat)).lookup "" = some 0 ∧
     jsLevel [("", 0)] initLoggerState (some "") = (initLoggerState, .ok none) ∧
     (jsLevel [("", 0)]
       ((jsLevel [("", 0)] initLoggerState (some "")).1) none).2 ≠ .ok (some "")) ∧
    (defaultLevels.lookup "toString" = none ∧
     jsLevel defaultLevels initLoggerState (some "toString") =
       ({ currentLevel := .protoMember "toString",
          currentLevelName := some "toString" }, .ok (some "toString")) ∧
     (jsLevel defaultLevels initLoggerState (some "toString")).1 ≠
       initLoggerState) := by
  refine ⟨⟨rfl, rfl, rfl, ?_⟩, rfl, rfl, ?_⟩
  · intro h
    simp [jsLevel, initLoggerState] at h
  · decide

/- ===== Transport drain lemmas ===== -/

/-- When every write attempt succeeds, the drain loop writes the whole queue
in FIFO order, emitting one `log` notification per entry and touching no
other state. -/
theorem processLoop_all_success (opts : Opts) (oracle : Nat → Bool) :
    ∀ (q : List Entry) (st : TS), st.queue = q →
      (∀ j, j < q.length → oracle (st.writeCount + j) = true) →
      processLoop opts oracle q st =
        { st with queue := [],
                  emitted := st.emitted ++ q.map (fun e => Emitted.logEvt (createLogLine e opts)),
                  written := st.written ++ q.map (fun e => createLogLine e opts),
                  writeCount := st.writeCount + q.length } := by
  intro q
  induction q with
  | nil =>
    intro st hq hok
    obtain ⟨q0, sk, cp, clp, em, wr, wc⟩ := st
    simp only [TS.queue] at hq
    subst hq
    simp [processLoop]
  | cons e rest ih =>
    intro st hq hok
    obtain ⟨q0, sk, cp, clp, em, wr, wc⟩ := st
    simp only [TS.queue] at hq
    subst hq
    have h0 : oracle wc = true := by simpa using hok 0 (by simp)
    simp only [processLoop, TS.writeCount, h0, if_true]
    rw [ih _ rfl ?_]
    · simp [List.append_assoc]
      omega
    · intro j hj
      have := hok (j + 1) (by simpa using Nat.succ_lt_succ hj)
      simpa [Nat.add_assoc, Nat.add_comm 1 j] using this

/-- When the first `sent.length` write attempts succeed and the next one
fails, the drain loop stops at the failing entry: that entry is back at the
front of the queue with the untouched remainder behind it in order, exactly
one error notification (carrying that write's failure) follows the emitted
`log` notifications, the socket is closed and the phase is DISCONNECTED, and
only the entries before the failure were written. -/
theorem processLoop_failure (opts : Opts) (oracle : Nat → Bool) :
    ∀ (sent : List Entry) (item : Entry) (rest : List Entry) (st : TS),
      st.queue = sent ++ item :: rest →
      (∀ j, j < sent.length → oracle (st.writeCount + j) = true) →
      oracle (st.writeCount + sent.length) = false →
      processLoop opts oracle (sent ++ item :: rest) st =
        { st with queue := item :: rest,
                  socket := false,
                  connectingPhase := some .DISCONNECTED,
                  emitted := st.emitted
                    ++ sent.map (fun e => Emitted.logEvt (createLogLine e opts))
                    ++ [.logEvt (createLogLine item opts),
                        .errorEvt (.writeFailure (st.writeCount + sent.length))],
                  written := st.written ++ sent.map (fun e => createLogLine e opts),
                  writeCount := st.writeCount + sent.length + 1 } := by
  intro sent
  induction sent with
  | nil =>
    intro item rest st hq hok hfail
    obtain ⟨q0, sk, cp, clp, em, wr, wc⟩ := st
    simp only [TS.queue] at hq
    subst hq
    simp only [TS.writeCount, List.length_nil, Nat.add_zero] at hfail
    simp [processLoop, hfail, closeSocket]
    split <;> simp_all
  | cons e sent ih =>
    intro item rest st hq hok hfail
    obtain ⟨q0, sk, cp, clp, em, wr, wc⟩ := st
    simp only [TS.queue] at hq
    subst hq
    have h0 : oracle wc = true := by simpa using hok 0 (by simp)
    have hok2 : ∀ j, j < sent.length → oracle (wc + 1 + j) = true := by
      intro j hj
      have := hok (j + 1) (by simpa using Nat.succ_lt_succ hj)
      simpa [Nat.add_assoc, Nat.add_comm 1 j] using this
    have hfail2 : oracle (wc + 1 + sent.length) = false := by
      have h : wc + 1 + sent.length = wc + (e :: sent).length := by
        simp only [List.length_cons]
        omega
      rw [h]
      simpa using hfail
    have hih := ih item rest
      { queue := sent ++ item :: rest, socket := sk, connectingPhase := cp,
        closingPhase := clp,
        emitted := em ++ [.logEvt (createLogLine e opts)],
        written := wr ++ [createLogLine e opts], writeCount := wc + 1 }
      rfl hok2 hfail2
    simp only [List.cons_append, List.append_eq, processLoop, TS.writeCount, h0, if_true]
    rw [hih]
    simp [List.append_assoc]
    omega

/-- Whatever the oracle does, the drain loop only appends notifications. -/
theorem processLoop_emitted_extends (opts : Opts) (oracle : Nat → Bool) :
    ∀ (q : List Entry) (st : TS), ∃ l,
      (processLoop opts oracle q st).emitted = st.emitted ++ l := by
  intro q
  induction q with
  | nil => intro st; exact ⟨[], by simp [processLoop]⟩
  | cons e rest ih =>
    intro st
    by_cases h : oracle st.writeCount
    · obtain ⟨l, hl⟩ := ih { st with
        queue := rest,
        emitted := st.emitted ++ [.logEvt (createLogLine e opts)],
        writeCount := st.writeCount + 1,
        written := st.written ++ [createLogLine e opts] }
      refine ⟨.logEvt (createLogLine e opts) :: l, ?_⟩
      simp only [processLoop, h, if_true]
      simpa using hl
    · refine ⟨[.logEvt (createLogLine e opts),
        .errorEvt (.writeFailure st.writeCount)], ?_⟩
      simp [processLoop, h, closeSocket]
      split <;> simp

/-- `consume` calls made while the transport is CONNECTING (and not closing)
only append to the queue: no notification, no connection attempt, no write. -/
theorem consumeAll_connecting (opts : Opts) (oracle : Nat → Bool) :
    ∀ (es : List Entry) (st : TS),
      st.closingPhase = none → st.connectingPhase = some .CONNECTING →
      consumeAll opts oracle st es = .ok { st with queue := st.queue ++ es } := by
  intro es
  induction es with
  | nil =>
    intro st h1 h2
    obtain ⟨q0, sk, cp, clp, em, wr, wc⟩ := st
    simp_all [consumeAll]
  | cons e es ih =>
    intro st h1 h2
    obtain ⟨q0, sk, cp, clp, em, wr, wc⟩ := st
    simp only at h1 h2
    subst h1
    subst h2
    have step : consume opts oracle
        (TS.mk q0 sk (some .CONNECTING) none em wr wc) e =
        .ok (TS.mk (q0 ++ [e]) sk (some .CONNECTING) none em wr wc) := by
      simp [consume]
    simp only [consumeAll, step]
    rw [ih _ rfl rfl]
    simp

/- ===== Transport claims ===== -/

/-- Whether an emitted notification is an error notification. -/
def isErrorEvt : Emitted → Bool
  | .errorEvt _ => true
  | _ => false

/-- C2: if the write of the entry at the front of the pending queue fails
mid-drain (after `sent` entries were written), that entry is back at the
front of the queue with the still-pending entries behind it in unchanged
order, the emitted notifications gain exactly one error event (carrying that
write's failure), the socket is closed, the phase is DISCONNECTED, and no
further entry is written in that drain. -/
theorem drain_write_failure_requeues_front (opts : Opts) (oracle : Nat → Bool)
    (st : TS) (sent : List Entry) (item : Entry) (rest : List Entry)
    (hq : st.queue = sent ++ item :: rest)
    (hok : ∀ j, j < sent.length → oracle (st.writeCount + j) = true)
    (hfail : oracle (st.writeCount + sent.length) = false) :
    processItemsInQueue opts oracle st =
      { st with queue := item :: rest,
                socket := false,
                connectingPhase := some .DISCONNECTED,
                emitted := st.emitted
                  ++ sent.map (fun e => Emitted.logEvt (createLogLine e opts))
                  ++ [.logEvt (createLogLine item opts),
                      .errorEvt (.writeFailure (st.writeCount + sent.length))],
                written := st.written ++ sent.map (fun e => createLogLine e opts),
                writeCount := st.writeCount + sent.length + 1 } ∧
    (sent.map (fun e => Emitted.logEvt (createLogLine e opts))
      ++ [Emitted.logEvt (createLogLine item opts),
          Emitted.errorEvt (JsError.writeFailure (st.writeCount + sent.length))]).countP
        isErrorEvt = 1 := by
  constructor
  · unfold processItemsInQueue
    rw [hq]
    exact processLoop_failure opts oracle sent item rest st hq hok hfail
  · simp [List.countP_append, List.countP_map, Function.comp, List.countP_cons, isErrorEvt]

/-- The transport options used by the concrete witness states. -/
def optsW : Opts :=
  { token := "tok ", usequotes := false, secure := false, host := none, port := none }

/-- A write oracle whose first attempt succeeds and whose second fails. -/
def oracleFail1 : Nat → Bool := fun i => i == 0

/-- A CONNECTED transport with three queued entries (C2 witness state). -/
def exC2 : TS :=
  { queue := [["info", "t1"], ["info", "t2"], ["info", "t3"]], socket := true,
    connectingPhase := some .CONNECTED, closingPhase := none,
    emitted := [], written := [], writeCount := 0 }

/-- C2 witness: the claim theorem applied to a CONNECTED transport with three
queued entries whose second write fails. -/
theorem drain_write_failure_requeues_front_witness :
    processItemsInQueue optsW oracleFail1 exC2 =
      { exC2 with
          queue := ["info", "t2"] :: [["info", "t3"]],
          socket := false,
          connectingPhase := some .DISCONNECTED,
          emitted := exC2.emitted
            ++ [["info", "t1"]].map (fun e => Emitted.logEvt (createLogLine e optsW))
            ++ [.logEvt (createLogLine ["info", "t2"] optsW),
                .errorEvt (.writeFailure (exC2.writeCount + [["info", "t1"]].length))],
          written := exC2.written ++ [["info", "t1"]].map (fun e => createLogLine e optsW),
          writeCount := exC2.writeCount + [["info", "t1"]].length + 1 } ∧
    ([["info", "t1"]].map (fun e => Emitted.logEvt (createLogLine e optsW))
      ++ [Emitted.logEvt (createLogLine ["info", "t2"] optsW),
          Emitted.errorEvt (JsError.writeFailure
            (exC2.writeCount + [["info", "t1"]].length))]).countP
        isErrorEvt = 1 :=
  drain_write_failure_requeues_front optsW oracleFail1 exC2
    [["info", "t1"]] ["info", "t2"] [["info", "t3"]]
    (by decide) (by decide) (by decide)

/-- C3: starting from a non-closing transport whose phase is DISCONNECTED (or
the initial null phase), a nonempty run of `consume` calls initiates exactly
one connection attempt — the first call connects (one `connect` notification,
phase CONNECTING) and every further call, made while CONNECTING, only appends
to the queue — and when the connection completes, `handleConnection` writes
all queued entries in FIFO enqueue order. -/
theorem consume_single_connect_then_fifo_drain (opts : Opts) (oracle : Nat → Bool)
    (st : TS) (e : Entry) (es : List Entry)
    (hclose : st.closingPhase = none)
    (hphase : st.connectingPhase = none ∨ st.connectingPhase = some .DISCONNECTED)
    (hok : ∀ j, j < (st.queue ++ e :: es).length → oracle (st.writeCount + j) = true) :
    consumeAll opts oracle st (e :: es) = .ok
      { st with queue := st.queue ++ e :: es,
                socket := true,
                connectingPhase := some .CONNECTING,
                emitted := st.emitted ++ [.connectEvt (optHost opts) (optPort opts)] } ∧
    handleConnection opts oracle
      { st with queue := st.queue ++ e :: es,
                socket := true,
                connectingPhase := some .CONNECTING,
                emitted := st.emitted ++ [.connectEvt (optHost opts) (optPort opts)] } =
      { st with queue := [],
                socket := true,
                connectingPhase := some .CONNECTED,
                emitted := st.emitted ++ [.connectEvt (optHost opts) (optPort opts)]
                  ++ (st.queue ++ e :: es).map (fun x => Emitted.logEvt (createLogLine x opts)),
                written := st.written ++ (st.queue ++ e :: es).map (fun x => createLogLine x opts),
                writeCount := st.writeCount + (st.queue ++ e :: es).length } := by
  obtain ⟨q0, sk, cp, clp, em, wr, wc⟩ := st
  simp only at hclose hphase hok ⊢
  subst hclose
  constructor
  · have step1 : consume opts oracle (TS.mk q0 sk cp none em wr wc) e = .ok
        (TS.mk (q0 ++ [e]) true (some .CONNECTING)
          none (em ++ [.connectEvt (optHost opts) (optPort opts)]) wr wc) := by
      rcases hphase with h | h <;> subst h <;>
        simp [consume, connect]
    simp only [consumeAll, step1]
    rw [consumeAll_connecting opts oracle es _ rfl rfl]
    simp
  · unfold handleConnection
    have hdrain := processLoop_all_success opts oracle (q0 ++ e :: es)
      (TS.mk (q0 ++ e :: es) true (some .CONNECTED)
        none (em ++ [.connectEvt (optHost opts) (optPort opts)]) wr wc)
      rfl (by simpa using hok)
    unfold processItemsInQueue
    simp only [TS.queue]
    rw [hdrain]
    simp

/-- A DISCONNECTED transport with nothing queued (C3 witness state). -/
def exC3 : TS :=
  { queue := [], socket := false, connectingPhase := some .DISCONNECTED,
    closingPhase := none, emitted := [], written := [], writeCount := 0 }

/-- A write oracle under which every write attempt succeeds. -/
def oracleT : Nat → Bool := fun _ => true

/-- C3 witness: the claim theorem applied to a DISCONNECTED transport fed two
entries, with all writes succeeding. -/
theorem consume_single_connect_then_fifo_drain_witness :
    consumeAll optsW oracleT exC3 (["info", "t1"] :: [["info", "t2"]]) = .ok
      { exC3 with queue := exC3.queue ++ ["info", "t1"] :: [["info", "t2"]],
                  socket := true,
                  connectingPhase := some .CONNECTING,
                  emitted := exC3.emitted ++ [.connectEvt (optHost optsW) (optPort optsW)] } ∧
    handleConnection optsW oracleT
      { exC3 with queue := exC3.queue ++ ["info", "t1"] :: [["info", "t2"]],
                  socket := true,
                  connectingPhase := some .CONNECTING,
                  emitted := exC3.emitted ++ [.connectEvt (optHost optsW) (optPort optsW)] } =
      { exC3 with queue := [],
                  socket := true,
                  connectingPhase := some .CONNECTED,
                  emitted := exC3.emitted ++ [.connectEvt (optHost optsW) (optPort optsW)]
                    ++ (exC3.queue ++ ["info", "t1"] :: [["info", "t2"]]).map
                      (fun x => Emitted.logEvt (createLogLine x optsW)),
                  written := exC3.written ++ (exC3.queue ++ ["info", "t1"] :: [["info", "t2"]]).map
                    (fun x => createLogLine x optsW),
                  writeCount := exC3.writeCount
                    + (exC3.queue ++ ["info", "t1"] :: [["info", "t2"]]).length } :=
  consume_single_connect_then_fifo_drain optsW oracleT exC3 ["info", "t1"] [["info", "t2"]]
    (by decide) (Or.inr (by decide)) (by decide)

/-- C4: `end()` called while CONNECTING with a non-empty queue defers the
close — inside the call only the closing phase becomes CLOSING and the `end`
notification is emitted, with no drain and no socket close — and when the
in-flight connection then completes successfully, all entries pending at that
moment are written in FIFO order, the socket is closed afterwards, and the
closing phase becomes CLOSED. -/
theorem end_during_connecting_defers_close (opts : Opts) (oracle : Nat → Bool)
    (st : TS)
    (hsock : st.socket = true)
    (hphase : st.connectingPhase = some .CONNECTING)
    (hq : st.queue ≠ [])
    (hclose : st.closingPhase = none)
    (hok : ∀ j, j < st.queue.length → oracle (st.writeCount + j) = true) :
    endTransport opts oracle st =
      { st with closingPhase := some .CLOSING, emitted := st.emitted ++ [.endEvt] } ∧
    handleConnection opts oracle
      { st with closingPhase := some .CLOSING, emitted := st.emitted ++ [.endEvt] } =
      { st with queue := [],
                socket := false,
                connectingPhase := some .CONNECTED,
                closingPhase := some .CLOSED,
                emitted := st.emitted ++ [.endEvt]
                  ++ st.queue.map (fun x => Emitted.logEvt (createLogLine x opts)),
                written := st.written ++ st.queue.map (fun x => createLogLine x opts),
                writeCount := st.writeCount + st.queue.length } := by
  obtain ⟨q0, sk, cp, clp, em, wr, wc⟩ := st
  simp only at hsock hphase hq hclose hok ⊢
  subst hsock
  subst hphase
  subst hclose
  constructor
  · have hlen : q0.length > 0 := List.length_pos.mpr hq
    simp [endTransport, hlen]
  · unfold handleConnection
    have hdrain := processLoop_all_success opts oracle q0
      (TS.mk q0 true (some .CONNECTED) (some .CLOSING) (em ++ [.endEvt]) wr wc)
      rfl (by simpa using hok)
    unfold processItemsInQueue
    simp only [TS.queue]
    rw [hdrain]
    simp [closeSocket]

/-- A CONNECTING transport with one queued entry and no closing phase
(C4 witness state). -/
def exC4 : TS :=
  { queue := [["info", "t1"]], socket := true, connectingPhase := some .CONNECTING,
    closingPhase := none, emitted := [], written := [], writeCount := 0 }

/-- C4 witness: the claim theorem applied to a CONNECTING transport holding
one pending entry, with the write succeeding. -/
theorem end_during_connecting_defers_close_witness :
    endTransport optsW oracleT exC4 =
      { exC4 with closingPhase := some .CLOSING, emitted := exC4.emitted ++ [.endEvt] } ∧
    handleConnection optsW oracleT
      { exC4 with closingPhase := some .CLOSING, emitted := exC4.emitted ++ [.endEvt] } =
      { exC4 with queue := [],
                  socket := false,
                  connectingPhase := some .CONNECTED,
                  closingPhase := some .CLOSED,
                  emitted := exC4.emitted ++ [.endEvt]
                    ++ exC4.queue.map (fun x => Emitted.logEvt (createLogLine x optsW)),
                  written := exC4.written ++ exC4.queue.map (fun x => createLogLine x optsW),
                  writeCount := exC4.writeCount + exC4.queue.length } :=
  end_during_connecting_defers_close optsW oracleT exC4
    (by decide) (by decide) (by decide) (by decide) (by decide)

/-- `closeSocket` always leaves the socket reference null. -/
theorem closeSocket_eq (st : TS) : closeSocket st = { st with socket := false } := by
  obtain ⟨q0, sk, cp, clp, em, wr, wc⟩ := st
  unfold closeSocket
  split <;> simp_all

/-- C5 (amended): `end()` is a no-op exactly when the transport holds no open
channel at the time of the call (`socket` is null) — not merely when no
channel has ever been opened.  Whenever a channel is currently open, `end()`
sets the closing phase (CLOSING, or CLOSED in the branches that close) and
emits an `end` notification last; in the branches that close (queue empty, or
phase not CONNECTING) the closing phase becomes CLOSED and the socket is
closed. -/
theorem end_noop_iff_socket_absent (opts : Opts) (oracle : Nat → Bool) (st : TS) :
    (endTransport opts oracle st = st ↔ st.socket = false) ∧
    (st.socket = true →
      ((endTransport opts oracle st).closingPhase = some .CLOSING ∨
       (endTransport opts oracle st).closingPhase = some .CLOSED) ∧
      (∃ l, (endTransport opts oracle st).emitted = st.emitted ++ l ++ [Emitted.endEvt]) ∧
      ((st.queue = [] ∨ st.connectingPhase ≠ some .CONNECTING) →
        (endTransport opts oracle st).closingPhase = some .CLOSED ∧
        (endTransport opts oracle st).socket = false)) := by
  obtain ⟨q0, sk, cp, clp, em, wr, wc⟩ := st
  cases sk with
  | false =>
    have hnoop : endTransport opts oracle (TS.mk q0 false cp clp em wr wc) =
        TS.mk q0 false cp clp em wr wc := by
      simp [endTransport]
    exact ⟨by simp [hnoop], fun h => by simp at h⟩
  | true =>
    have hb : ∃ l, (endTransport opts oracle (TS.mk q0 true cp clp em wr wc)).emitted =
        em ++ l ++ [Emitted.endEvt] := by
      by_cases hq : q0 = []
      · subst hq
        exact ⟨[], by simp [endTransport, closeSocket_eq]⟩
      · have hlen : q0.length > 0 := List.length_pos.mpr hq
        by_cases hcp : cp = some ConnPhase.CONNECTING
        · subst hcp
          exact ⟨[], by simp [endTransport, hlen]⟩
        · obtain ⟨l, hl⟩ := processLoop_emitted_extends opts oracle q0
            (TS.mk q0 true cp (some .CLOSING) em wr wc)
          refine ⟨l, ?_⟩
          simp only [endTransport, processItemsInQueue, closeSocket_eq]
          simp [hlen, hcp]
          rw [hl]
          simp
    have hne : endTransport opts oracle (TS.mk q0 true cp clp em wr wc) ≠
        TS.mk q0 true cp clp em wr wc := by
      intro heq
      obtain ⟨l, hl⟩ := hb
      rw [heq] at hl
      have := congrArg List.length hl
      simp at this
    refine ⟨by simp [hne], fun _ => ⟨?_, hb, ?_⟩⟩
    · by_cases hq : q0 = []
      · subst hq
        right
        simp [endTransport, closeSocket_eq]
      · have hlen : q0.length > 0 := List.length_pos.mpr hq
        by_cases hcp : cp = some ConnPhase.CONNECTING
        · subst hcp
          left
          simp [endTransport, hlen]
        · right
          simp [endTransport, processItemsInQueue, closeSocket_eq, hlen, hcp]
    · intro hcond
      by_cases hq : q0 = []
      · subst hq
        constructor <;> simp [endTransport, closeSocket_eq]
      · have hlen : q0.length > 0 := List.length_pos.mpr hq
        have hcp : ¬ cp = some ConnPhase.CONNECTING := by
          rcases hcond with h | h
          · exact absurd h hq
          · simpa using h
        constructor <;>
          simp [endTransport, processItemsInQueue, closeSocket_eq, hlen, hcp]

/-- A transport state whose socket is currently open with empty queue
(C5 amended-claim witness state). -/
def exC5 : TS :=
  { queue := [], socket := true, connectingPhase := some .CONNECTED,
    closingPhase := none, emitted := [], written := [], writeCount := 0 }

/-- C5 witness: the amended claim theorem applied to a connected transport
with an open socket and to the same state, evaluated concretely. -/
theorem end_noop_iff_socket_absent_witness :
    (endTransport optsW oracleT exC5 = exC5 ↔ exC5.socket = false) ∧
    (exC5.socket = true →
      ((endTransport optsW oracleT exC5).closingPhase = some .CLOSING ∨
       (endTransport optsW oracleT exC5).closingPhase = some .CLOSED) ∧
      (∃ l, (endTransport optsW oracleT exC5).emitted =
        exC5.emitted ++ l ++ [Emitted.endEvt]) ∧
      ((exC5.queue = [] ∨ exC5.connectingPhase ≠ some .CONNECTING) →
        (endTransport optsW oracleT exC5).closingPhase = some .CLOSED ∧
        (endTransport optsW oracleT exC5).socket = false)) :=
  end_noop_iff_socket_absent optsW oracleT exC5

/-- The state reached from a fresh transport by one `consume` call: the
connection attempt has opened a channel and the transport is CONNECTING. -/
def exC5Connecting : TS :=
  { queue := [["info", "t1"]], socket := true, connectingPhase := some .CONNECTING,
    closingPhase := none,
    emitted := [.connectEvt DEFAULT_LE_HOST DEFAULT_LE_PORT],
    written := [], writeCount := 0 }

/-- The state after the connection attempt is refused: the error callback has
closed the channel and left the transport DISCONNECTED. -/
def exC5Down : TS := handleError (.channelError "ECONNREFUSED") exC5Connecting

/-- C5 counterexample: a channel has been opened at some point (the `connect`
notification is in the history), yet `end()` in this reachable state is a
complete no-op — it does not set the closing phase and emits no `end`
notification — because the `if (socket)` guard tests the current socket
reference, which the error handler nulled.  The claim's "no-op exactly when
no channel has ever been opened" is therefore false. -/
theorem end_noop_despite_channel_opened :
    consume optsW oracleT initTS ["info", "t1"] = .ok exC5Connecting ∧
    Emitted.connectEvt DEFAULT_LE_HOST DEFAULT_LE_PORT ∈ exC5Down.emitted ∧
    exC5Down.socket = false ∧
    endTransport optsW oracleT exC5Down = exC5Down ∧
    exC5Down.closingPhase = none ∧
    Emitted.endEvt ∉ (endTransport optsW oracleT exC5Down).emitted := by
  refine ⟨?_, by decide, by decide, ?_, by decide, by decide⟩
  · simp [consume, initTS, connect, exC5Connecting, optsW, optHost, optPort,
      DEFAULT_LE_HOST, DEFAULT_LE_PORT]
  · simp [endTransport, exC5Down, handleError, exC5Connecting, closeSocket]

/-- C6: a secure channel whose handshake completes but whose peer is not
authorized is treated exactly like a channel-level error: the authorization
failure is reported on the notification channel, the channel is closed, the
phase becomes DISCONNECTED (so the transport does not reach CONNECTED through
this channel), and no queued entry is written or removed from the queue. -/
theorem secure_unauthorized_treated_as_error (opts : Opts) (oracle : Nat → Bool)
    (authorizationError : String) (st : TS) :
    handleSecureConnection opts oracle false authorizationError st =
      handleError (.authError authorizationError) st ∧
    (handleSecureConnection opts oracle false authorizationError st).emitted =
      st.emitted ++ [Emitted.errorEvt (JsError.authError authorizationError)] ∧
    (handleSecureConnection opts oracle false authorizationError st).socket = false ∧
    (handleSecureConnection opts oracle false authorizationError st).connectingPhase =
      some .DISCONNECTED ∧
    (handleSecureConnection opts oracle false authorizationError st).connectingPhase ≠
      some .CONNECTED ∧
    (handleSecureConnection opts oracle false authorizationError st).queue = st.queue ∧
    (handleSecureConnection opts oracle false authorizationError st).written = st.written := by
  obtain ⟨q0, sk, cp, clp, em, wr, wc⟩ := st
  refine ⟨rfl, ?_, ?_, ?_, ?_, ?_, ?_⟩ <;>
    simp [handleSecureConnection, handleError, closeSocket_eq]

/-- A CONNECTING secure transport awaiting its handshake (C6 witness
state). -/
def exC6 : TS :=
  { queue := [["info", "t1"]], socket := true, connectingPhase := some .CONNECTING,
    closingPhase := none, emitted := [], written := [], writeCount := 0 }

/-- C6 witness: the claim theorem applied to a CONNECTING transport whose
secure handshake reports an unauthorized peer. -/
theorem secure_unauthorized_treated_as_error_witness :
    handleSecureConnection optsW oracleT false "UNABLE_TO_VERIFY_LEAF_SIGNATURE" exC6 =
      handleError (.authError "UNABLE_TO_VERIFY_LEAF_SIGNATURE") exC6 ∧
    (handleSecureConnection optsW oracleT false "UNABLE_TO_VERIFY_LEAF_SIGNATURE"
      exC6).emitted =
      exC6.emitted ++ [Emitted.errorEvt
        (JsError.authError "UNABLE_TO_VERIFY_LEAF_SIGNATURE")] ∧
    (handleSecureConnection optsW oracleT false "UNABLE_TO_VERIFY_LEAF_SIGNATURE"
      exC6).socket = false ∧
    (handleSecureConnection optsW oracleT false "UNABLE_TO_VERIFY_LEAF_SIGNATURE"
      exC6).connectingPhase = some .DISCONNECTED ∧
    (handleSecureConnection optsW oracleT false "UNABLE_TO_VERIFY_LEAF_SIGNATURE"
      exC6).connectingPhase ≠ some .CONNECTED ∧
    (handleSecureConnection optsW oracleT false "UNABLE_TO_VERIFY_LEAF_SIGNATURE"
      exC6).queue = exC6.queue ∧
    (handleSecureConnection optsW oracleT false "UNABLE_TO_VERIFY_LEAF_SIGNATURE"
      exC6).written = exC6.written :=
  secure_unauthorized_treated_as_error optsW oracleT "UNABLE_TO_VERIFY_LEAF_SIGNATURE" exC6
